import Mathlib

set_option linter.unusedVariables false

/-!
Shallow embedding of the VarenizerWeb backend (`src/src-tauri/src/main.rs`)
and proofs about its scanning pipeline.

Modelling choices, each justified by the source:

* A Rust `PathBuf` is observed by the program only through three operations:
  `to_string_lossy().to_string()`, `file_name().and_then(to_str)` and
  `extension().and_then(to_str)`.  `Path` below records exactly those three
  observations.  For a path built by `PathBuf::from` on a Rust `String`
  (as `scan_files` does), `repr` is that original string, since a Rust
  `String` is valid UTF-8 and `to_string_lossy` is then the identity.
* `std::fs::metadata` is the only filesystem access; the program uses only
  `metadata.len()`.  The filesystem is passed explicitly as
  `fs : Path → Except String Nat` (`Nat` = the `u64` length, on which no
  arithmetic is performed; the `String` is the `Display` rendering of the
  `io::Error`).
* The sources of nondeterminism — `SystemTime::now()` nanoseconds,
  `Uuid::new_v4()`, `chrono::Utc::now()` — are passed explicitly: per-call
  for the helpers, and per-iteration (indexed by the loop counter) for
  `scan_files`, via `MockEnv`.
* Rust `str::replace(s, "-", "")` with the one-character pattern `"-"`
  removes every `'-'`; `stripDashes` implements exactly that.
* `rand_val < 0.2` in the source compares `(nanos % 100) as f32 / 100.0`
  with the `f32` literals `0.2` and `0.3`.  For every integer
  `n ∈ [0, 100)`, `(n as f32) / 100.0` rounds to the `f32` nearest `n/100`,
  and that float is `< 0.2f32` exactly when `n ≤ 19` and `< 0.3f32` exactly
  when `n ≤ 29` (for `n = 20` resp. `n = 30` the quotient rounds to the
  very float the literal denotes).  The embedding therefore uses the exact
  integer tests `nanos % 100 < 20` and `nanos % 100 < 30`.
* The `tokio::time::sleep` between files suspends but computes nothing; it
  has no counterpart in the value-level embedding.
-/

namespace Varenizer

/-- A filesystem path as the program observes it: `repr` is
`to_string_lossy().to_string()`, `fileName` is `file_name().and_then(to_str)`
(`none` when there is no final component or it is not valid UTF-8), and
`extension` is `extension().and_then(to_str)` (`none` when absent). -/
structure Path where
  repr : String
  fileName : Option String
  extension : Option String
deriving DecidableEq

/-- Mirrors `struct FileInfo` (main.rs lines 10-16); `size : u64` becomes
`Nat` as no arithmetic is performed on it. -/
structure FileInfo where
  name : String
  path : String
  size : Nat
  extension : String
deriving DecidableEq

/-- Mirrors `struct ScanResult` (main.rs lines 18-26). -/
structure ScanResult where
  id : String
  file_info : FileInfo
  status : String
  threats : List String
  scan_time : String
  hash : String
deriving DecidableEq

/-- Rust `str::replace(s, "-", "")`: with the single-character pattern `"-"`
this removes every `'-'` from the string. -/
def stripDashes (s : String) : String :=
  ⟨s.data.filter (fun c => c != '-')⟩

/-- Mirrors `get_file_info` (main.rs lines 100-118): one `metadata` stat call,
then `file_name`/`extension` with `unwrap_or` defaults, never panicking. -/
def get_file_info (fs : Path → Except String Nat) (path : Path) :
    Except String FileInfo :=
  match fs path with
  | .error e => .error e
  | .ok len =>
      .ok { name := path.fileName.getD "Unknown"
            path := path.repr
            size := len
            extension := path.extension.getD "" }

/-- Mirrors `generate_mock_scan_result` (main.rs lines 120-142).  The implicit
inputs of the Rust function are made explicit: `nanos` is
`SystemTime::now().duration_since(UNIX_EPOCH).as_nanos()`, `uuidId` and
`uuidHash` the two `Uuid::new_v4()` draws, `nowStr` the `chrono` timestamp.
The `f32` comparisons `rand_val < 0.2` / `< 0.3` coincide with the integer
tests `nanos % 100 < 20` / `< 30` (see the module comment). -/
def generate_mock_scan_result (nanos : Nat) (uuidId uuidHash nowStr : String)
    (file_info : FileInfo) : ScanResult :=
  let randVal := nanos % 100
  let statusThreats : String × List String :=
    if randVal < 20 then
      ("threat", ["Trojan.Generic.KD", "PUP.Optional.Bundle"])
    else if randVal < 30 then
      ("suspicious", ["Potentially Unwanted Program"])
    else
      ("clean", [])
  { id := uuidId
    file_info := file_info
    status := statusThreats.1
    threats := statusThreats.2
    scan_time := nowStr
    hash := "sha256:" ++ stripDashes uuidHash }

/-- Mirrors `get_file_hash` (main.rs lines 67-72): the body never touches the
filesystem or the file's bytes; it formats a fresh UUID (here the explicit
`uuid` argument) and always returns `Ok`. -/
def get_file_hash (uuid : String) (file_path : String) : Except String String :=
  .ok ("sha256:" ++ stripDashes uuid)

/-- Per-iteration nondeterministic inputs of the `scan_files` loop, indexed by
the loop counter: the `SystemTime` nanoseconds, the two `Uuid::new_v4()`
draws and the `chrono` timestamp consumed by `generate_mock_scan_result`
on that iteration. -/
structure MockEnv where
  nanos : Nat → Nat
  uuidId : Nat → String
  uuidHash : Nat → String
  nowStr : Nat → String

/-- Mirrors `scan_files` (main.rs lines 42-65): a sequential loop over the
input paths; on the first `get_file_info` failure the whole call returns
`Err("Failed to get file info: …")` (the Rust `return Err(...)`), discarding
all results accumulated so far; otherwise each file's mock result is pushed
in input order.  `i` is the loop counter selecting this iteration's
nondeterministic inputs from `env`. -/
def scan_files (fs : Path → Except String Nat) (env : MockEnv) :
    Nat → List Path → Except String (List ScanResult)
  | _, [] => .ok []
  | i, file_path :: rest =>
      match get_file_info fs file_path with
      | .error e => .error ("Failed to get file info: " ++ e)
      | .ok file_info =>
          match scan_files fs env (i + 1) rest with
          | .error e => .error e
          | .ok results =>
              .ok (generate_mock_scan_result (env.nanos i) (env.uuidId i)
                     (env.uuidHash i) (env.nowStr i) file_info :: results)

/-- Observer used to state claims about success/failure of an `Except`. -/
def exceptIsOk {α : Type} : Except String α → Bool
  | .ok _ => true
  | .error _ => false

/-- Observer used to state the aggregate-count claim: how many results in a
list carry the given status string. -/
def countByStatus (s : String) (rs : List ScanResult) : Nat :=
  rs.countP (fun r => r.status == s)

instance {ε α : Type} [DecidableEq ε] [DecidableEq α] : DecidableEq (Except ε α) := fun x y =>
  match x, y with
  | .error a, .error b =>
      if h : a = b then .isTrue (by rw [h]) else .isFalse (fun hc => h (by cases hc; rfl))
  | .error _, .ok _ => .isFalse (fun hc => Except.noConfusion hc)
  | .ok _, .error _ => .isFalse (fun hc => Except.noConfusion hc)
  | .ok a, .ok b =>
      if h : a = b then .isTrue (by rw [h]) else .isFalse (fun hc => h (by cases hc; rfl))

/-! Concrete fixtures used by counterexamples and witnesses. -/

/-- A filesystem in which `/tmp/a.txt` stats with length 5 and every other
path fails with `not found`. -/
def fsEx : Path → Except String Nat := fun p =>
  if p.repr = "/tmp/a.txt" then .ok 5 else .error "not found"

/-- A concrete draw of the nondeterministic inputs: every iteration sees
nanoseconds 50 (a `clean` verdict), result id `id0`, hash UUID `h` and
timestamp `t`. -/
def envEx : MockEnv :=
  { nanos := fun _ => 50
    uuidId := fun _ => "id0"
    uuidHash := fun _ => "h"
    nowStr := fun _ => "t" }

/-- The existing file of the fixture filesystem. -/
def pA : Path := { repr := "/tmp/a.txt", fileName := some "a.txt", extension := some "txt" }

/-- A path whose stat fails in the fixture filesystem. -/
def pB : Path := { repr := "/tmp/missing.bin", fileName := some "missing.bin", extension := some "bin" }

/-- The concrete FileInfo argument used by classification counterexamples. -/
def fiEx : FileInfo := { name := "a.txt", path := "/tmp/a.txt", size := 5, extension := "txt" }

/-- The one scan result `scan_files fsEx envEx 0 [pA]` produces. -/
def rEx : ScanResult :=
  { id := "id0"
    file_info := fiEx
    status := "clean"
    threats := []
    scan_time := "t"
    hash := "sha256:h" }

/-! Theorems settling the claims. -/

/-- C3, counterexample: classification is NOT deterministic in the `FileInfo`
alone — the verdict also depends on the wall clock.  On the very same
`FileInfo`, an invocation at nanoseconds 0 yields status `threat` while one
at nanoseconds 50 yields status `clean`. -/
theorem classification_time_dependent_cex :
    (generate_mock_scan_result 0 "id0" "h" "t" fiEx).status ≠
      (generate_mock_scan_result 50 "id0" "h" "t" fiEx).status := by
  decide

/-- C3, amended: classification is deterministic in `(FileInfo, nanos)` —
in fact the `(status, threats)` pair depends only on the time-derived random
value `nanos % 100`, and not on the UUID draws, the timestamp string, or
even the `FileInfo` itself; two invocations seeing the same nanoseconds
value agree regardless of order or of any other input. -/
theorem classification_deterministic_in_rand (nanos : Nat)
    (u1 h1 t1 u2 h2 t2 : String) (fi1 fi2 : FileInfo) :
    (generate_mock_scan_result nanos u1 h1 t1 fi1).status =
        (generate_mock_scan_result nanos u2 h2 t2 fi2).status ∧
      (generate_mock_scan_result nanos u1 h1 t1 fi1).threats =
        (generate_mock_scan_result nanos u2 h2 t2 fi2).threats :=
  ⟨rfl, rfl⟩

/-- C4, counterexample: hashing is NOT idempotent.  Two invocations of
`get_file_hash` on the same path (hence the same file content) draw distinct
fresh UUIDs — modelled by the explicit `uuid` argument — and return distinct
digest strings. -/
theorem get_file_hash_not_idempotent_cex :
    get_file_hash "aaaa" "/tmp/a.txt" ≠ get_file_hash "bbbb" "/tmp/a.txt" := by
  intro h
  have : ("sha256:" ++ stripDashes "aaaa") = ("sha256:" ++ stripDashes "bbbb") := by
    simpa [get_file_hash] using h
  simp [stripDashes] at this

/-- C4, amended: the digest is a pure function of the freshly drawn UUID
alone — for the same UUID draw, any two invocations return the same `Ok`
digest string whatever the path (and hence whatever the file content);
distinct invocations differ only because each draws a fresh UUID. -/
theorem get_file_hash_determined_by_uuid (uuid p1 p2 : String) :
    ∃ d, get_file_hash uuid p1 = .ok d ∧ get_file_hash uuid p2 = .ok d :=
  ⟨"sha256:" ++ stripDashes uuid, rfl, rfl⟩

/-- C5: for every scan result the scanner produces, the threat list is empty
exactly when the status is `clean`, and non-empty exactly when the status is
`suspicious` or `threat`. -/
theorem threats_empty_iff_clean (nanos : Nat) (u h t : String) (fi : FileInfo) :
    ((generate_mock_scan_result nanos u h t fi).status = "clean" ↔
        (generate_mock_scan_result nanos u h t fi).threats = []) ∧
      ((generate_mock_scan_result nanos u h t fi).threats ≠ [] ↔
        ((generate_mock_scan_result nanos u h t fi).status = "suspicious" ∨
          (generate_mock_scan_result nanos u h t fi).status = "threat")) := by
  by_cases h1 : nanos % 100 < 20
  · simp [generate_mock_scan_result, h1]
  · by_cases h2 : nanos % 100 < 30 <;>
      simp [generate_mock_scan_result, h1, h2]

/-- C7: every digest the program produces — the standalone `get_file_hash`
output and the `hash` field of every scan result — is the algorithm name
`sha256`, a colon, then the (mock) hex digest. -/
theorem digest_sha256_format (uuid p : String) (nanos : Nat)
    (u h t : String) (fi : FileInfo) :
    (∃ hex, get_file_hash uuid p = .ok ("sha256:" ++ hex)) ∧
      (∃ hex, (generate_mock_scan_result nanos u h t fi).hash = "sha256:" ++ hex) :=
  ⟨⟨stripDashes uuid, rfl⟩, ⟨stripDashes h, rfl⟩⟩

/-- C8: `get_file_hash` always returns `Ok` — it never consults the
filesystem (its embedding needs no `fs` argument at all), so it succeeds on
nonexistent paths, and its output is independent of which path (hence which
file content) it is given. -/
theorem get_file_hash_total_path_independent (uuid p p' : String) :
    exceptIsOk (get_file_hash uuid p) = true ∧
      get_file_hash uuid p = get_file_hash uuid p' :=
  ⟨rfl, rfl⟩

/-- C10: `get_file_info` returns `Ok` exactly when the stat succeeds, with
`size` the stat'ed length, `name` the path's final component (`"Unknown"`
when there is none or it is not valid UTF-8), `extension` the path's
extension (`""` when there is none); when the stat fails it returns that
error.  The embedding is a total function, so no input panics. -/
theorem get_file_info_characterization (fs : Path → Except String Nat) (p : Path) :
    (∀ len, fs p = .ok len →
        get_file_info fs p =
          .ok { name := p.fileName.getD "Unknown", path := p.repr,
                size := len, extension := p.extension.getD "" }) ∧
      (∀ e, fs p = .error e → get_file_info fs p = .error e) := by
  constructor
  · intro len hfs; simp [get_file_info, hfs]
  · intro e hfs; simp [get_file_info, hfs]

/-- C10, witness: on the concrete fixture filesystem, `/tmp/a.txt` stats with
length 5 and yields exactly the expected `FileInfo`, while the stat of
`/tmp/missing.bin` fails and `get_file_info` surfaces that error. -/
theorem get_file_info_characterization_witness :
    get_file_info fsEx pA =
        .ok { name := "a.txt", path := "/tmp/a.txt", size := 5, extension := "txt" } ∧
      get_file_info fsEx pB = .error "not found" :=
  ⟨(get_file_info_characterization fsEx pA).1 5 (by decide),
   (get_file_info_characterization fsEx pB).2 "not found" (by decide)⟩

/-- C1, counterexample: a failure to read one file's metadata DOES abort the
whole batch.  With `/tmp/a.txt` readable and `/tmp/missing.bin` failing its
stat, `scan_files` on the two-element batch returns a single `Err` for the
entire call — no successful result covering `/tmp/a.txt` and no per-file
error list. -/
theorem scan_files_metadata_error_aborts_batch_cex :
    scan_files fsEx envEx 0 [pA, pB] = .error "Failed to get file info: not found" := by
  decide

/-- C1, amended: a failure to read one file's metadata aborts the whole
batch — whenever any path in the input list fails `get_file_info`, the
entire `scan_files` call returns `Err`, discarding the results of the files
that succeeded; there is no per-file error list. -/
theorem scan_files_aborts_on_any_metadata_error (fs : Path → Except String Nat)
    (env : MockEnv) (i : Nat) (ps : List Path)
    (h : ∃ p ∈ ps, exceptIsOk (get_file_info fs p) = false) :
    exceptIsOk (scan_files fs env i ps) = false := by
  induction ps generalizing i with
  | nil => simp at h
  | cons q rest ih =>
    cases hq : get_file_info fs q with
    | error e => simp [scan_files, hq, exceptIsOk]
    | ok info =>
      have hrest : ∃ p ∈ rest, exceptIsOk (get_file_info fs p) = false := by
        obtain ⟨p, hp, hbad⟩ := h
        cases hp with
        | head => rw [hq] at hbad; simp [exceptIsOk] at hbad
        | tail _ hmem => exact ⟨p, hmem, hbad⟩
      cases hr : scan_files fs env (i + 1) rest with
      | error e => simp [scan_files, hq, hr, exceptIsOk]
      | ok results =>
        have hrec := ih (i + 1) hrest
        rw [hr] at hrec
        simp [exceptIsOk] at hrec

/-- C1, witness for the amended claim: on the fixture two-element batch where
only the second path fails its stat, the whole call fails. -/
theorem scan_files_aborts_on_any_metadata_error_witness :
    exceptIsOk (scan_files fsEx envEx 0 [pA, pB]) = false :=
  scan_files_aborts_on_any_metadata_error fsEx envEx 0 [pA, pB]
    ⟨pB, by decide, by decide⟩

/-- C2, counterexample: `scan_files` does not return a `ScanSession` — on a
concrete one-element batch its value is literally the bare list of per-file
results, carrying no `total_files`, `threats_found`, `suspicious_files` or
`clean_files` counters (its return type in the source is
`Result<Vec<ScanResult>, String>`). -/
theorem scan_files_returns_bare_list_cex :
    scan_files fsEx envEx 0 [pA] = .ok [rEx] := by
  decide

/-- Helper: each mock result's status is exactly one of the three verdict
strings, counted once. -/
theorem gen_status_trichotomy (nanos : Nat) (u h t : String) (fi : FileInfo) :
    ((if (generate_mock_scan_result nanos u h t fi).status == "threat" then 1 else 0) +
        (if (generate_mock_scan_result nanos u h t fi).status == "suspicious" then 1 else 0) +
        (if (generate_mock_scan_result nanos u h t fi).status == "clean" then 1 else 0)) = 1 := by
  by_cases h1 : nanos % 100 < 20
  · simp [generate_mock_scan_result, h1]
  · by_cases h2 : nanos % 100 < 30 <;> simp [generate_mock_scan_result, h1, h2]

/-- C2, amended: `scan_files` returns a bare list of `ScanResult` with no
session-level aggregate counters; the aggregate invariant holds only of
counts computed from that list — on every successful call, the number of
results equals the number with status `threat` plus the number with status
`suspicious` plus the number with status `clean` (and, per C1, a successful
call means every file succeeded). -/
theorem scan_files_counts_partition (fs : Path → Except String Nat) (env : MockEnv)
    (i : Nat) (ps : List Path) (rs : List ScanResult)
    (h : scan_files fs env i ps = .ok rs) :
    rs.length =
      countByStatus "threat" rs + countByStatus "suspicious" rs +
        countByStatus "clean" rs := by
  induction ps generalizing i rs with
  | nil =>
    simp [scan_files] at h
    subst h
    simp [countByStatus]
  | cons q rest ih =>
    cases hq : get_file_info fs q with
    | error e => simp [scan_files, hq] at h
    | ok info =>
      cases hr : scan_files fs env (i + 1) rest with
      | error e => simp [scan_files, hq, hr] at h
      | ok results =>
        simp [scan_files, hq, hr] at h
        subst h
        have hcount := ih (i + 1) results hr
        have htri := gen_status_trichotomy (env.nanos i) (env.uuidId i)
          (env.uuidHash i) (env.nowStr i) info
        simp only [countByStatus, List.countP_cons, List.length_cons] at *
        omega

/-- C2, witness for the amended claim: the fixture batch succeeds with one
`clean` result, and `1 = 0 + 0 + 1`. -/
theorem scan_files_counts_partition_witness :
    ([rEx]).length =
      countByStatus "threat" [rEx] + countByStatus "suspicious" [rEx] +
        countByStatus "clean" [rEx] :=
  scan_files_counts_partition fsEx envEx 0 [pA] [rEx] (by decide)

/-- C9: whenever `scan_files` returns successfully, it returns exactly one
result per input path, in input order, and the i-th result's
`file_info.path` is the `to_string_lossy` rendering of the i-th input path
(for a path built by `PathBuf::from` on a Rust string, that original
string). -/
theorem scan_files_preserves_paths_in_order (fs : Path → Except String Nat)
    (env : MockEnv) (i : Nat) (ps : List Path) (rs : List ScanResult)
    (h : scan_files fs env i ps = .ok rs) :
    rs.length = ps.length ∧
      rs.map (fun r => r.file_info.path) = ps.map Path.repr := by
  have hmap : rs.map (fun r => r.file_info.path) = ps.map Path.repr := by
    induction ps generalizing i rs with
    | nil => simp [scan_files] at h; subst h; simp
    | cons q rest ih =>
      cases hq : get_file_info fs q with
      | error e => simp [scan_files, hq] at h
      | ok info =>
        cases hr : scan_files fs env (i + 1) rest with
        | error e => simp [scan_files, hq, hr] at h
        | ok results =>
          simp [scan_files, hq, hr] at h
          subst h
          have hpath : info.path = q.repr := by
            cases hfs : fs q with
            | error e => simp [get_file_info, hfs] at hq
            | ok len =>
              simp [get_file_info, hfs] at hq
              rw [← hq]
          simp [generate_mock_scan_result, hpath, ih (i + 1) results hr]
  refine ⟨?_, hmap⟩
  have := congrArg List.length hmap
  simpa using this

/-- C9, witness: on the fixture one-element batch, the single result's path
is `/tmp/a.txt`, aligned with the single input path. -/
theorem scan_files_preserves_paths_in_order_witness :
    ([rEx]).length = ([pA]).length ∧
      ([rEx]).map (fun r => r.file_info.path) = ([pA]).map Path.repr :=
  scan_files_preserves_paths_in_order fsEx envEx 0 [pA] [rEx] (by decide)

end Varenizer
